import Mathlib

/-!
Shallow embedding of the tdd-nodejs-rest-api repository core:
the in-memory mock `Database` (src/data/database.js), the `Validator`
utilities (src/utils/validator.js), the `UserService`
(src/services/userService.js) and the `UserController` status mapping
(src/controllers/userController.js).

Modelling conventions:
- JS timestamps (`new Date()`) are abstracted as `Nat`; every operation
  that stamps a time receives the current time `now` as a parameter.
- `uuidv4()` is abstracted as a `freshId : String` parameter; theorems
  that need freshness of the generated id state it as a hypothesis.
- A JS object field that may be absent is an `Option`; an absent field
  is `none`.  A creation payload always carries an `email` string
  (an absent email is rejected by the service's falsy check before it
  reaches the store, so store-level behaviour on payloads without an
  email string is not modelled).
- The JS `Map` backing the store is an association list in insertion
  order; `Map.set` on an existing key replaces the value in place.
- The artificial `setTimeout` latency is irrelevant to the values
  computed and is dropped.
-/

namespace TddRest

/-- Whitespace for the purposes of JS `String.prototype.trim` (ASCII part). -/
def isJsWhitespace (c : Char) : Bool :=
  c == ' ' || c == '\t' || c == '\n' || c == '\r' || c == '\x0b' || c == '\x0c'

/-- JS `String.prototype.trim`: drop whitespace from both ends. -/
def jsTrim (s : String) : String :=
  ⟨((s.toList.dropWhile isJsWhitespace).reverse.dropWhile isJsWhitespace).reverse⟩

/-- A character admitted by the regex class `[^\s@]`. -/
def goodEmailChar (c : Char) : Bool :=
  !isJsWhitespace c && c != '@'

/-- Test of the email regex `/^[^\s@]+@[^\s@]+\.[^\s@]+$/` used by both the
`Validator` and the `UserService`: the string splits at a single `@` into a
non-empty local part and a domain that has a `.` strictly inside it, and no
character is whitespace or a second `@`. -/
def emailRegexTest (s : String) : Bool :=
  match s.toList.splitOn '@' with
  | [a, b] =>
    !a.isEmpty && a.all goodEmailChar && b.all goodEmailChar &&
      ((b.drop 1).dropLast.contains '.')
  | _ => false

/-- Validator.isValidName (src/utils/validator.js): falsy or non-string is
invalid, otherwise the trimmed length must lie in [2, 100]. The argument is
`Option String`; `none` stands for an absent or non-string value. -/
def isValidName (name : Option String) : Bool :=
  match name with
  | none => false
  | some s =>
    if s == "" then false
    else
      let trimmedName := jsTrim s
      decide (2 ≤ trimmedName.length) && decide (trimmedName.length ≤ 100)

/-- A stored user record. -/
structure User where
  id : String
  name : String
  email : String
  age : Rat
  createdAt : Nat
  updatedAt : Nat
deriving DecidableEq

/-- A creation payload as it reaches `UserService.createUser` /
`Database.createUser`.  Fields other than `email` may be absent. -/
structure CreateData where
  id : Option String
  name : Option String
  email : String
  age : Option Rat
  createdAt : Option Nat
  updatedAt : Option Nat
deriving DecidableEq

/-- An update patch as it reaches `UserService.updateUser` /
`Database.updateUser`.  Every field may be absent. -/
structure UpdateData where
  id : Option String
  name : Option String
  email : Option String
  age : Option Rat
  createdAt : Option Nat
  updatedAt : Option Nat
deriving DecidableEq

/-- The JS `Map` of users: an association list in insertion order. -/
abbrev UserMap := List (String × User)

/-- JS `Map.prototype.set`: replace in place if the key exists, else append. -/
def mapSet (m : UserMap) (k : String) (v : User) : UserMap :=
  match m with
  | [] => [(k, v)]
  | (k', v') :: rest =>
    if k' == k then (k', v) :: rest else (k', v') :: mapSet rest k v

/-- JS `Map.prototype.get` (with `|| null` flattened into `Option`). -/
def mapGet (m : UserMap) (k : String) : Option User :=
  match m with
  | [] => none
  | (k', v') :: rest => if k' == k then some v' else mapGet rest k

/-- JS `Map.prototype.delete`. -/
def mapDelete (m : UserMap) (k : String) : UserMap :=
  match m with
  | [] => []
  | (k', v') :: rest => if k' == k then rest else (k', v') :: mapDelete rest k

/-- JS `Array.from(map.values())`: the values in insertion order. -/
def mapValues (m : UserMap) : List User :=
  m.map Prod.snd

/-- The mock database state: the user map and the connection flag. -/
structure DB where
  users : UserMap
  isConnected : Bool
deriving DecidableEq

/-- First seeded sample user (id abstracts the generated uuid; the
`Date('2023-01-01')` timestamp is abstracted as a constant). -/
def johnUser (i : String) : User :=
  { id := i, name := "John Doe", email := "john@example.com", age := 30,
    createdAt := 20230101, updatedAt := 20230101 }

/-- Second seeded sample user. -/
def janeUser (i : String) : User :=
  { id := i, name := "Jane Smith", email := "jane@example.com", age := 25,
    createdAt := 20230102, updatedAt := 20230102 }

/-- Database.seedData: set the two sample users. -/
def seedData (id1 id2 : String) (m : UserMap) : UserMap :=
  mapSet (mapSet m id1 (johnUser id1)) id2 (janeUser id2)

/-- The state built by the Database constructor: seeded, not connected. -/
def newDatabase (id1 id2 : String) : DB :=
  { users := seedData id1 id2 [], isConnected := false }

/-- Database.connect. -/
def connect (db : DB) : DB :=
  { db with isConnected := true }

/-- Database.disconnect. -/
def disconnect (db : DB) : DB :=
  { db with isConnected := false }

/-- The message of the error thrown by every data operation when the store
is not connected. -/
def dbError : String := "Database not connected"

/-- The store's duplicate-email rejection message. -/
def duplicateEmailError : String := "User with this email already exists"

/-- The store's missing-id rejection message. -/
def notFoundError : String := "User not found"

/-- Database.findAllUsers. -/
def findAllUsers (db : DB) : Except String (List User) :=
  if !db.isConnected then .error dbError
  else .ok (mapValues db.users)

/-- Database.findUserById: resolves `null` (here `none`) when missing. -/
def findUserById (db : DB) (id : String) : Except String (Option User) :=
  if !db.isConnected then .error dbError
  else .ok (mapGet db.users id)

/-- Database.findUserByEmail: exact-match scan over the values. -/
def findUserByEmail (db : DB) (email : String) : Except String (Option User) :=
  if !db.isConnected then .error dbError
  else .ok ((mapValues db.users).find? (fun u => u.email == email))

/-- Database.createUser.  The JS object literal is
`{ id: uuidv4(), ...userData, createdAt: new Date(), updatedAt: new Date() }`:
a payload `id` overrides the generated one (the spread comes after `id:`),
while payload `createdAt`/`updatedAt` are overridden by the stamps (the
spread comes before them).  Absent `name`/`age` default to `""`/`0` here;
in JS the field would be absent, and no theorem below observes that value. -/
def createUser (db : DB) (freshId : String) (now : Nat) (d : CreateData) :
    Except String (User × DB) :=
  if !db.isConnected then .error dbError
  else if ((mapValues db.users).find? (fun u => u.email == d.email)).isSome then
    .error duplicateEmailError
  else
    let newUser : User :=
      { id := d.id.getD freshId
        name := d.name.getD ""
        email := d.email
        age := d.age.getD 0
        createdAt := now
        updatedAt := now }
    .ok (newUser, { db with users := mapSet db.users newUser.id newUser })

/-- The condition `updateData.email && updateData.email !== user.email`
followed by the duplicate scan: the scan runs only when the patch email is
truthy (non-empty) and differs from the current value. -/
def emailConflictCheck (m : UserMap) (user : User) (pe : Option String) :
    Bool :=
  match pe with
  | some e =>
    e != "" && e != user.email &&
      ((mapValues m).find? (fun u => u.email == e)).isSome
  | none => false

/-- The merge `{ ...user, ...updateData, updatedAt: new Date() }`: every
present patch field (including `id` and `createdAt`) overrides the record,
and `updatedAt` is always re-stamped. -/
def mergeUser (user : User) (p : UpdateData) (now : Nat) : User :=
  { id := p.id.getD user.id
    name := p.name.getD user.name
    email := p.email.getD user.email
    age := p.age.getD user.age
    createdAt := p.createdAt.getD user.createdAt
    updatedAt := now }

/-- Database.updateUser.  Fails when not connected or when the id is absent;
otherwise checks the duplicate condition and merges.  The map key stays the
requested `id` even if the patch overrode the record's `id` field. -/
def updateUser (db : DB) (id : String) (now : Nat) (p : UpdateData) :
    Except String (User × DB) :=
  if !db.isConnected then .error dbError
  else
    match mapGet db.users id with
    | none => .error notFoundError
    | some user =>
      if emailConflictCheck db.users user p.email then
        .error duplicateEmailError
      else
        .ok (mergeUser user p now,
          { db with users := mapSet db.users id (mergeUser user p now) })

/-- Database.deleteUser. -/
def deleteUser (db : DB) (id : String) : Except String DB :=
  if !db.isConnected then .error dbError
  else if (mapGet db.users id).isNone then .error notFoundError
  else .ok { db with users := mapDelete db.users id }

/-- Database.clearAllData. -/
def clearAllData (db : DB) : Except String DB :=
  if !db.isConnected then .error dbError
  else .ok { db with users := [] }

/-! The UserService layer (src/services/userService.js). -/

/-- The error message pushed by the service's create/update name check. -/
def nameError : String := "Name must be at least 2 characters long"

/-- The error message pushed by the service's create/update email check. -/
def emailError : String := "Valid email is required"

/-- The error message pushed by the service's create/update age check. -/
def ageError : String := "Age must be a number between 0 and 150"

/-- UserService.isValidEmail: the regex test, without trimming. -/
def svcIsValidEmail (email : String) : Bool :=
  emailRegexTest email

/-- The creation name check of UserService.validateUserData:
`!userData.name || typeof userData.name !== 'string' ||
userData.name.trim().length < 2` — note there is no upper bound on the
length.  `none` stands for an absent or non-string value. -/
def createNameCheckFails (name : Option String) : Bool :=
  match name with
  | none => true
  | some s => s == "" || decide ((jsTrim s).length < 2)

/-- The creation email check: `!userData.email || !isValidEmail(userData.email)`. -/
def createEmailCheckFails (email : String) : Bool :=
  email == "" || !svcIsValidEmail email

/-- The creation age check: `age === undefined || age === null ||
typeof age !== 'number' || age < 0 || age > 150`; `none` stands for an
absent, null or non-number value. -/
def createAgeCheckFails (age : Option Rat) : Bool :=
  match age with
  | none => true
  | some a => decide (a < 0) || decide (150 < a)

/-- UserService.validateUserData: the three creation checks in order. -/
def validateUserData (d : CreateData) : List String :=
  (if createNameCheckFails d.name then [nameError] else []) ++
  (if createEmailCheckFails d.email then [emailError] else []) ++
  (if createAgeCheckFails d.age then [ageError] else [])

/-- The update name check, applied only when `name` is present. -/
def updateNameCheckFails (name : Option String) : Bool :=
  match name with
  | none => false
  | some s => decide ((jsTrim s).length < 2)

/-- The update email check, applied only when `email` is present. -/
def updateEmailCheckFails (email : Option String) : Bool :=
  match email with
  | none => false
  | some e => !svcIsValidEmail e

/-- The update age check, applied only when `age` is present. -/
def updateAgeCheckFails (age : Option Rat) : Bool :=
  match age with
  | none => false
  | some a => decide (a < 0) || decide (150 < a)

/-- UserService.validateUpdateData: the same three checks, each applied only
to a field present in the patch.  A present `id`, `createdAt` or
`updatedAt` field is not examined at all. -/
def validateUpdateData (p : UpdateData) : List String :=
  (if updateNameCheckFails p.name then [nameError] else []) ++
  (if updateEmailCheckFails p.email then [emailError] else []) ++
  (if updateAgeCheckFails p.age then [ageError] else [])

/-- Per-operation statistics payload of getUserStats. -/
structure Stats where
  totalUsers : Nat
  averageAge : Rat
  youngestUser : Rat
  oldestUser : Rat
deriving DecidableEq

/-- The `data` field of a service envelope: a user, a listing, or stats. -/
inductive Payload where
  | user (u : User)
  | users (l : List User)
  | stats (s : Stats)
deriving DecidableEq

/-- The uniform result envelope `{ success, data?, error?, message }`
returned by every service operation; an absent field is `none`. -/
structure Envelope where
  success : Bool
  data : Option Payload
  error : Option String
  message : String
deriving DecidableEq

/-- The envelope returned by getUserById/updateUser/deleteUser on a falsy id. -/
def invalidInputEnv : Envelope :=
  { success := false, data := none, error := some "User ID is required",
    message := "Invalid input" }

/-- The envelope returned when the referenced user does not exist. -/
def notFoundEnv : Envelope :=
  { success := false, data := none, error := some notFoundError,
    message := "User with the specified ID does not exist" }

/-- Errors joined with `', '` as in `validationResult.errors.join(', ')`. -/
def joinErrors (errs : List String) : String :=
  String.intercalate ", " errs

/-- The validation-failed envelope. -/
def validationFailedEnv (errs : List String) : Envelope :=
  { success := false, data := none, error := some (joinErrors errs),
    message := "Validation failed" }

/-- UserService.getAllUsers. -/
def svcGetAllUsers (db : DB) : Envelope :=
  match findAllUsers db with
  | .ok users =>
    { success := true, data := some (.users users), error := none,
      message := "Users retrieved successfully" }
  | .error m =>
    { success := false, data := none, error := some m,
      message := "Failed to retrieve users" }

/-- UserService.getUserById.  A falsy id (modelled: the empty string) is
rejected before the store is consulted; a thrown store error is caught. -/
def svcGetUserById (db : DB) (id : String) : Envelope :=
  if id == "" then invalidInputEnv
  else
    match findUserById db id with
    | .error m =>
      { success := false, data := none, error := some m,
        message := "Failed to retrieve user" }
    | .ok none => notFoundEnv
    | .ok (some u) =>
      { success := true, data := some (.user u), error := none,
        message := "User retrieved successfully" }

/-- UserService.createUser: validate, check the email via the store, then
create; thrown store errors are caught into a generic failure envelope.
Returns the envelope together with the resulting store state. -/
def svcCreateUser (db : DB) (freshId : String) (now : Nat) (d : CreateData) :
    Envelope × DB :=
  let errs := validateUserData d
  if errs != [] then (validationFailedEnv errs, db)
  else
    match findUserByEmail db d.email with
    | .error m =>
      ({ success := false, data := none, error := some m,
         message := "Failed to create user" }, db)
    | .ok (some _) =>
      ({ success := false, data := none, error := some duplicateEmailError,
         message := "Duplicate email address" }, db)
    | .ok none =>
      match createUser db freshId now d with
      | .error m =>
        ({ success := false, data := none, error := some m,
           message := "Failed to create user" }, db)
      | .ok (u, db') =>
        ({ success := true, data := some (.user u), error := none,
           message := "User created successfully" }, db')

/-- UserService.updateUser: falsy-id check, then validation, then the
existence check, then the store update; thrown store errors are caught. -/
def svcUpdateUser (db : DB) (id : String) (now : Nat) (p : UpdateData) :
    Envelope × DB :=
  if id == "" then (invalidInputEnv, db)
  else
    let errs := validateUpdateData p
    if errs != [] then (validationFailedEnv errs, db)
    else
      match findUserById db id with
      | .error m =>
        ({ success := false, data := none, error := some m,
           message := "Failed to update user" }, db)
      | .ok none => (notFoundEnv, db)
      | .ok (some _) =>
        match updateUser db id now p with
        | .error m =>
          ({ success := false, data := none, error := some m,
             message := "Failed to update user" }, db)
        | .ok (u, db') =>
          ({ success := true, data := some (.user u), error := none,
             message := "User updated successfully" }, db')

/-- UserService.deleteUser: falsy-id check, existence check, then delete.
The success envelope carries no `data` field. -/
def svcDeleteUser (db : DB) (id : String) : Envelope × DB :=
  if id == "" then (invalidInputEnv, db)
  else
    match findUserById db id with
    | .error m =>
      ({ success := false, data := none, error := some m,
         message := "Failed to delete user" }, db)
    | .ok none => (notFoundEnv, db)
    | .ok (some _) =>
      match deleteUser db id with
      | .error m =>
        ({ success := false, data := none, error := some m,
           message := "Failed to delete user" }, db)
      | .ok db' =>
        ({ success := true, data := none, error := none,
           message := "User deleted successfully" }, db')

/-- JS `Math.min(...l)` on a non-empty list (the empty case is guarded by
`users.length > 0` at the call site). -/
def jsMinList (l : List Rat) : Rat :=
  match l with
  | [] => 0
  | a :: as => as.foldl min a

/-- JS `Math.max(...l)` on a non-empty list. -/
def jsMaxList (l : List Rat) : Rat :=
  match l with
  | [] => 0
  | a :: as => as.foldl max a

/-- The stats object computed by UserService.getUserStats over a listing. -/
def computeStats (users : List User) : Stats :=
  { totalUsers := users.length
    averageAge :=
      if users.length > 0 then
        (users.foldl (fun sum u => sum + u.age) 0) / (users.length : Rat)
      else 0
    youngestUser :=
      if users.length > 0 then jsMinList (users.map User.age) else 0
    oldestUser :=
      if users.length > 0 then jsMaxList (users.map User.age) else 0 }

/-- UserService.getUserStats. -/
def svcGetUserStats (db : DB) : Envelope :=
  match findAllUsers db with
  | .ok users =>
    { success := true, data := some (.stats (computeStats users)),
      error := none, message := "User statistics retrieved successfully" }
  | .error m =>
    { success := false, data := none, error := some m,
      message := "Failed to retrieve user statistics" }

/-! The UserController status mapping (src/controllers/userController.js). -/

/-- The HTTP status chosen by UserController.updateUser for a service
envelope: 200 on success, else 404 for exactly `'User not found'`,
409 for exactly `'User with this email already exists'`, otherwise 400. -/
def ctrlUpdateStatus (env : Envelope) : Nat :=
  if env.success then 200
  else if env.error == some notFoundError then 404
  else if env.error == some duplicateEmailError then 409
  else 400

/-! Store operation sequences, for reachability over the raw store. -/

/-- A single raw store operation with its non-deterministic inputs
(generated id, current time) made explicit. -/
inductive Op where
  | connectOp
  | disconnectOp
  | createOp (freshId : String) (now : Nat) (d : CreateData)
  | updateOp (id : String) (now : Nat) (p : UpdateData)
  | deleteOp (id : String)
  | clearOp
deriving DecidableEq

/-- Run one store operation; an operation that throws leaves the state
unchanged (the JS code mutates the map only on the success path). -/
def applyOp (db : DB) (op : Op) : DB :=
  match op with
  | .connectOp => connect db
  | .disconnectOp => disconnect db
  | .createOp f n d =>
    match createUser db f n d with
    | .ok (_, db') => db'
    | .error _ => db
  | .updateOp i n p =>
    match updateUser db i n p with
    | .ok (_, db') => db'
    | .error _ => db
  | .deleteOp i =>
    match deleteUser db i with
    | .ok db' => db'
    | .error _ => db
  | .clearOp =>
    match clearAllData db with
    | .ok db' => db'
    | .error _ => db

/-- Run a sequence of store operations. -/
def runOps (db : DB) (ops : List Op) : DB :=
  ops.foldl applyOp db

/-- No two stored records have the same email. -/
def emailsUnique (db : DB) : Prop :=
  (mapValues db.users).Pairwise (fun u v => u.email ≠ v.email)

/-- An operation whose patch email, when present, is truthy (non-empty):
the condition under which the store's update duplicate check cannot be
bypassed. -/
def truthyEmailPatch (op : Op) : Bool :=
  match op with
  | .updateOp _ _ p =>
    match p.email with
    | none => true
    | some e => e != ""
  | _ => true

instance decEmailNe : DecidableRel (fun u v : User => u.email ≠ v.email) :=
  fun _ _ => instDecidableNot

instance decEmailsUnique (db : DB) : Decidable (emailsUnique db) :=
  List.instDecidablePairwise _

/-! Concrete inputs used by counterexamples and witnesses. -/

/-- The update patch with no field present. -/
def emptyPatch : UpdateData :=
  ⟨none, none, none, none, none, none⟩

/-- A seeded, connected store whose first seed id is `"k"`. -/
def c1db : DB := connect (newDatabase "k" "b")

/-- A creation payload that carries its own `id`, equal to a stored id. -/
def c1data : CreateData :=
  ⟨some "k", some "Evil", "x@y.z", some 1, none, none⟩

/-- A seeded, connected store with seed ids `"a"` and `"b"`. -/
def seededDb : DB := connect (newDatabase "a" "b")

/-- A patch that carries only a `createdAt` field. -/
def createdAtPatch : UpdateData :=
  ⟨none, none, none, none, some 999, none⟩

/-- A 101-character name (trims to itself). -/
def longName : String := String.mk (List.replicate 101 'a')

/-- A creation payload whose name trims to 101 characters and whose other
fields are valid. -/
def longNameData : CreateData :=
  ⟨none, some longName, "a@b.c", some 30, none, none⟩

/-- A patch carrying only an out-of-range age. -/
def badAgePatch : UpdateData :=
  ⟨none, none, none, some 200, none, none⟩

/-- A patch carrying only the second seed user's email. -/
def janeEmailPatch : UpdateData :=
  ⟨none, none, some "jane@example.com", none, none, none⟩

/-- A patch carrying a present-but-empty email string. -/
def emptyEmailPatch : UpdateData :=
  ⟨none, none, some "", none, none, none⟩

/-- An operation sequence whose update patches all carry truthy emails. -/
def truthyOps : List Op :=
  [.connectOp,
   .createOp "c" 3 ⟨none, some "New User", "new@x.io", some 20, none, none⟩,
   .updateOp "a" 4 ⟨none, none, some "j2@x.io", none, none, none⟩,
   .deleteOp "b"]

/-- A creation payload that carries its own `createdAt`/`updatedAt` values. -/
def stampedData : CreateData :=
  ⟨none, some "Body", "x@y.z", some 20, some 999, some 888⟩

/-- The record produced for `stampedData` at time 5 with generated id `"f"`. -/
def stampedUser : User :=
  ⟨"f", "Body", "x@y.z", 20, 5, 5⟩

/-- The store state after creating `stampedData` in `seededDb` at time 5. -/
def stampedDb : DB :=
  { users := [("a", johnUser "a"), ("b", janeUser "b"), ("f", stampedUser)],
    isConnected := true }

/-- A valid creation payload without id or timestamp fields. -/
def plainData : CreateData :=
  ⟨none, some "New User", "x@y.z", some 20, none, none⟩

/-- The record produced for `plainData` at time 5 with generated id `"f"`. -/
def plainUser : User :=
  ⟨"f", "New User", "x@y.z", 20, 5, 5⟩

/-- A connected store whose three users have ages 30, 25 and 35. -/
def statsDb : DB :=
  { users := [("a", ⟨"a", "A", "a@b.c", 30, 0, 0⟩),
              ("b", ⟨"b", "B", "b@b.c", 25, 0, 0⟩),
              ("c", ⟨"c", "C", "c@b.c", 35, 0, 0⟩)],
    isConnected := true }

/-! Helper lemmas about the association-list map. -/

theorem mapGet_set_self (m : UserMap) (k : String) (v : User) :
    mapGet (mapSet m k v) k = some v := by
  induction m with
  | nil => simp [mapSet, mapGet]
  | cons hd tl ih =>
    obtain ⟨k', v'⟩ := hd
    by_cases h : k' = k
    · simp [mapSet, mapGet, h]
    · simp [mapSet, mapGet, h, ih]

theorem mapSet_of_not_mem (m : UserMap) (k : String) (v : User)
    (h : k ∉ m.map Prod.fst) : mapSet m k v = m ++ [(k, v)] := by
  induction m with
  | nil => simp [mapSet]
  | cons hd tl ih =>
    obtain ⟨k', v'⟩ := hd
    simp only [List.map_cons, List.mem_cons] at h
    push_neg at h
    simp [mapSet, Ne.symm h.1, ih h.2]

theorem mem_mapSet {m : UserMap} {k : String} {v : User} {q : String × User}
    (h : q ∈ mapSet m k v) : q ∈ m ∨ q = (k, v) := by
  induction m with
  | nil => simpa [mapSet] using h
  | cons hd tl ih =>
    obtain ⟨k', v'⟩ := hd
    by_cases hk : k' = k
    · simp only [mapSet, hk, beq_self_eq_true, if_true] at h
      rcases List.mem_cons.mp h with h | h
      · right; simpa [hk] using h
      · left; exact List.mem_cons_of_mem _ h
    · simp only [mapSet, beq_iff_eq, hk, if_false] at h
      rcases List.mem_cons.mp h with h | h
      · left; exact h ▸ List.mem_cons_self _ _
      · rcases ih h with h | h
        · left; exact List.mem_cons_of_mem _ h
        · right; exact h

theorem mapDelete_sublist (m : UserMap) (k : String) :
    (mapDelete m k).Sublist m := by
  induction m with
  | nil => exact List.Sublist.refl _
  | cons hd tl ih =>
    obtain ⟨k', v'⟩ := hd
    by_cases h : k' = k
    · simp only [mapDelete, h, beq_self_eq_true, if_true]
      exact List.sublist_cons_self (k, v') tl
    · simpa [mapDelete, h] using ih.cons₂ (k', v')

theorem mapGet_mem {m : UserMap} {k : String} {u : User}
    (h : mapGet m k = some u) : (k, u) ∈ m := by
  induction m with
  | nil => simp [mapGet] at h
  | cons hd tl ih =>
    obtain ⟨k', v'⟩ := hd
    by_cases hk : k' = k
    · simp only [mapGet, hk, beq_self_eq_true, if_true, Option.some.injEq] at h
      simp [hk, h]
    · simp only [mapGet, beq_iff_eq, hk, if_false] at h
      exact List.mem_cons_of_mem _ (ih h)

/-- The relation underlying the store invariant: distinct keys and distinct
emails. -/
def MapR (p q : String × User) : Prop :=
  p.1 ≠ q.1 ∧ p.2.email ≠ q.2.email

/-- The store invariant on the raw map: pairwise distinct keys and pairwise
distinct emails. -/
def goodMap (m : UserMap) : Prop :=
  m.Pairwise MapR

theorem mapR_symm : Symmetric MapR := by
  intro p q h
  exact ⟨h.1.symm, h.2.symm⟩

theorem goodMap_set {m : UserMap} {k : String} {v : User}
    (hm : goodMap m) (hv : ∀ q ∈ m, q.1 ≠ k → q.2.email ≠ v.email) :
    goodMap (mapSet m k v) := by
  induction m with
  | nil => simp [mapSet, goodMap]
  | cons hd tl ih =>
    obtain ⟨k', u⟩ := hd
    obtain ⟨h1, h2⟩ := List.pairwise_cons.mp hm
    by_cases hk : k' = k
    · simp only [mapSet, hk, beq_self_eq_true, if_true]
      refine List.pairwise_cons.mpr ⟨?_, h2⟩
      intro q hq
      have hkq : k ≠ q.1 := hk ▸ (h1 q hq).1
      have : q.2.email ≠ v.email :=
        hv q (List.mem_cons_of_mem _ hq) (Ne.symm hkq)
      exact ⟨hkq, this.symm⟩
    · simp only [mapSet, beq_iff_eq, hk, if_false]
      refine List.pairwise_cons.mpr ⟨?_, ?_⟩
      · intro q hq
        rcases mem_mapSet hq with h | h
        · exact h1 q h
        · subst h
          refine ⟨hk, ?_⟩
          exact hv (k', u) (List.mem_cons_self _ _) hk
      · exact ih h2 (fun q hq hne => hv q (List.mem_cons_of_mem _ hq) hne)

theorem goodMap_delete {m : UserMap} (k : String) (hm : goodMap m) :
    goodMap (mapDelete m k) :=
  hm.sublist (mapDelete_sublist m k)

theorem goodMap_values {m : UserMap} (hm : goodMap m) :
    (mapValues m).Pairwise (fun u v => u.email ≠ v.email) :=
  hm.map Prod.snd (fun _ _ h => h.2)

theorem goodMap_email_of_get {m : UserMap} {i : String} {user : User}
    (hm : goodMap m) (hget : mapGet m i = some user) :
    ∀ q ∈ m, q.1 ≠ i → q.2.email ≠ user.email := by
  intro q hq hne
  have hmem : (i, user) ∈ m := mapGet_mem hget
  have hqne : q ≠ (i, user) := by
    intro hcontra
    rw [hcontra] at hne
    exact hne rfl
  exact (hm.forall mapR_symm hq hmem hqne).2

theorem goodMap_applyOp {db : DB} {op : Op}
    (h : goodMap db.users) (hop : truthyEmailPatch op = true) :
    goodMap (applyOp db op).users := by
  cases op with
  | connectOp => exact h
  | disconnectOp => exact h
  | clearOp =>
    simp only [applyOp]
    cases hc : clearAllData db with
    | error m => exact h
    | ok db' =>
      unfold clearAllData at hc
      split at hc
      · exact absurd hc (by simp)
      · obtain rfl : { db with users := [] } = db' := by injection hc
        exact List.Pairwise.nil
  | deleteOp i =>
    simp only [applyOp]
    cases hc : deleteUser db i with
    | error m => exact h
    | ok db' =>
      unfold deleteUser at hc
      split at hc
      · exact absurd hc (by simp)
      · split at hc
        · exact absurd hc (by simp)
        · obtain rfl : { db with users := mapDelete db.users i } = db' := by
            injection hc
          exact goodMap_delete i h
  | createOp f n d =>
    simp only [applyOp]
    cases hc : createUser db f n d with
    | error m => exact h
    | ok r =>
      obtain ⟨u, db'⟩ := r
      unfold createUser at hc
      split at hc
      · exact absurd hc (by simp)
      · split at hc
        case isTrue => exact absurd hc (by simp)
        case isFalse hfind =>
          obtain ⟨hu, hdb⟩ : _ ∧ _ := by
            have := hc
            injection this with h1
            injection h1 with hu hdb
            exact ⟨hu, hdb⟩
          subst hu
          rw [← hdb]
          apply goodMap_set h
          intro q hq _
          rw [Option.not_isSome_iff_eq_none, List.find?_eq_none] at hfind
          have : q.2 ∈ mapValues db.users := List.mem_map_of_mem Prod.snd hq
          have := hfind q.2 this
          simpa using this
  | updateOp i n p =>
    simp only [applyOp]
    cases hc : updateUser db i n p with
    | error m => exact h
    | ok r =>
      obtain ⟨u, db'⟩ := r
      unfold updateUser at hc
      split at hc
      · exact absurd hc (by simp)
      · split at hc
        · exact absurd hc (by simp)
        next user hget =>
          split at hc
          · exact absurd hc (by simp)
          next hconf =>
            obtain ⟨hu, hdb⟩ : _ ∧ _ := by
              have h2 := hc
              injection h2 with h1
              injection h1 with hu hdb
              exact ⟨hu, hdb⟩
            rw [← hdb]
            apply goodMap_set h
            intro q hq hqi
            have hmerge : (mergeUser user p n).email = p.email.getD user.email :=
              rfl
            cases hpe : p.email with
            | none =>
              rw [hmerge, hpe, Option.getD_none]
              exact goodMap_email_of_get h hget q hq hqi
            | some e =>
              have he : e ≠ "" := by
                simpa [truthyEmailPatch, hpe] using hop
              rw [hmerge, hpe, Option.getD_some]
              by_cases heu : e = user.email
              · rw [heu]
                exact goodMap_email_of_get h hget q hq hqi
              · have hfind :
                    ((mapValues db.users).find? (fun v => v.email == e)).isSome
                      = false := by
                  by_contra hcontra
                  rw [Bool.not_eq_false] at hcontra
                  apply hconf
                  rw [hpe]
                  simp only [emailConflictCheck]
                  simp [bne_iff_ne, he, heu, hcontra]
                have hnone :
                    (mapValues db.users).find? (fun v => v.email == e) = none :=
                  Option.not_isSome_iff_eq_none.mp (by simp [hfind])
                have hq2 : q.2 ∈ mapValues db.users :=
                  List.mem_map_of_mem Prod.snd hq
                have hne := List.find?_eq_none.mp hnone q.2 hq2
                simpa using hne

theorem goodMap_runOps {db : DB} {ops : List Op}
    (h : goodMap db.users)
    (hops : ∀ op ∈ ops, truthyEmailPatch op = true) :
    goodMap (runOps db ops).users := by
  induction ops generalizing db with
  | nil => exact h
  | cons op rest ih =>
    exact ih (goodMap_applyOp h (hops op (List.mem_cons_self _ _)))
      (fun o ho => hops o (List.mem_cons_of_mem _ ho))

theorem goodMap_newDatabase (a b : String) :
    goodMap (newDatabase a b).users := by
  unfold newDatabase seedData
  apply goodMap_set
  · apply goodMap_set List.Pairwise.nil
    intro q hq
    simp [mapSet] at hq
  · intro q hq hne
    have : q = (a, johnUser a) := by
      simpa [mapSet] using hq
    rw [this]
    intro hcontra
    simp [johnUser, janeUser] at hcontra

/-! Claim C5. -/

/-- C5, counterexample: from the seeded initial state, connecting and then
updating each seeded user with a patch whose email field is present but the
empty string (which the store's `updateData.email && ...` guard treats as
falsy, skipping the duplicate check) produces a reachable state in which two
stored records have the same email.  The claim that email uniqueness is
preserved by every operation is therefore false. -/
theorem c5_counterexample :
    ¬ emailsUnique (runOps (newDatabase "a" "b")
        [.connectOp, .updateOp "a" 1 emptyEmailPatch,
         .updateOp "b" 2 emptyEmailPatch]) := by
  decide

/-- C5, amended: in every store state reachable from the seeded initial
state by connect, disconnect, create, update, delete and clear operations
in which every update patch's email field, when present, is a non-empty
string, no two stored user records have the same email. -/
theorem c5_theorem (a b : String) (ops : List Op)
    (hops : ∀ op ∈ ops, truthyEmailPatch op = true) :
    emailsUnique (runOps (newDatabase a b) ops) :=
  goodMap_values (goodMap_runOps (goodMap_newDatabase a b) hops)

/-- Witness for C5 at a concrete operation sequence. -/
theorem c5_witness :
    (∀ op ∈ truthyOps, truthyEmailPatch op = true) ∧
    emailsUnique (runOps (newDatabase "a" "b") truthyOps) :=
  ⟨by decide, c5_theorem "a" "b" truthyOps (by decide)⟩

/-! Claim C8. -/

/-- C8: every data operation of the store invoked while disconnected fails
with the `'Database not connected'` error, and no operation run in the
disconnected state changes the set of stored records. -/
theorem c8_theorem (db : DB) (h : db.isConnected = false) :
    findAllUsers db = .error dbError ∧
    (∀ id, findUserById db id = .error dbError) ∧
    (∀ e, findUserByEmail db e = .error dbError) ∧
    (∀ f n d, createUser db f n d = .error dbError) ∧
    (∀ i n p, updateUser db i n p = .error dbError) ∧
    (∀ i, deleteUser db i = .error dbError) ∧
    clearAllData db = .error dbError ∧
    (∀ op, (applyOp db op).users = db.users) := by
  refine ⟨?_, ?_, ?_, ?_, ?_, ?_, ?_, ?_⟩
  · simp [findAllUsers, h]
  · intro id; simp [findUserById, h]
  · intro e; simp [findUserByEmail, h]
  · intro f n d; simp [createUser, h]
  · intro i n p; simp [updateUser, h]
  · intro i; simp [deleteUser, h]
  · simp [clearAllData, h]
  · intro op
    cases op <;>
      simp [applyOp, connect, disconnect, createUser, updateUser, deleteUser,
        clearAllData, h]

/-- Witness for C8 at the freshly constructed (disconnected) store. -/
theorem c8_witness :
    (newDatabase "a" "b").isConnected = false ∧
    findAllUsers (newDatabase "a" "b") = .error dbError ∧
    createUser (newDatabase "a" "b") "f" 0 plainData = .error dbError :=
  ⟨rfl, (c8_theorem (newDatabase "a" "b") rfl).1,
    (c8_theorem (newDatabase "a" "b") rfl).2.2.2.1 "f" 0 plainData⟩

/-! Claim C10. -/

/-- C10: whenever the store's create operation succeeds, the stored and
returned record's `createdAt` and `updatedAt` equal the stamp time `now`,
regardless of any `createdAt`/`updatedAt` fields in the creation payload
(the object literal stamps them after spreading the payload). -/
theorem c10_theorem (db : DB) (freshId : String) (now : Nat) (d : CreateData)
    (u : User) (db' : DB) (h : createUser db freshId now d = .ok (u, db')) :
    u.createdAt = now ∧ u.updatedAt = now ∧
    mapGet db'.users u.id = some u := by
  unfold createUser at h
  split at h
  · exact absurd h (by simp)
  · split at h
    · exact absurd h (by simp)
    · obtain ⟨hu, hdb⟩ : _ ∧ _ := by
        have h2 := h
        injection h2 with h1
        injection h1 with hu hdb
        exact ⟨hu, hdb⟩
      subst hu
      refine ⟨rfl, rfl, ?_⟩
      rw [← hdb]
      exact mapGet_set_self _ _ _

/-- Witness for C10 at a payload that does carry `createdAt`/`updatedAt`. -/
theorem c10_witness :
    stampedData.createdAt = some 999 ∧ stampedData.updatedAt = some 888 ∧
    (stampedUser.createdAt = 5 ∧ stampedUser.updatedAt = 5 ∧
      mapGet stampedDb.users stampedUser.id = some stampedUser) :=
  ⟨rfl, rfl, c10_theorem seededDb "f" 5 stampedData stampedUser stampedDb
    (by rfl)⟩

/-! Claim C1. -/

/-- C1, counterexample: a creation payload that carries its own `id` field
overrides the generated id (the spread `...userData` comes after
`id: uuidv4()`), so with a fresh email and payload id `"k"` — an id already
in the store — creation succeeds and returns a record whose id is `"k"`:
taken from the creation data, not freshly generated, and not distinct from
the stored ids.  This refutes the claim as stated. -/
theorem c1_counterexample :
    ((mapValues c1db.users).find? (fun u => u.email == c1data.email)
      = none) ∧
    (createUser c1db "f" 5 c1data).map (fun r => r.1.id) = .ok "k" ∧
    "k" ∈ (mapValues c1db.users).map User.id ∧ "k" ≠ "f" := by
  refine ⟨by rfl, by rfl, by decide, by decide⟩

/-- C1, amended: for every creation payload that does not itself carry an
`id` field and whose email matches no stored record's email, create uses the
server-generated id — which, whenever the generated id is genuinely fresh
(as a uuid is), is distinct from every stored id — stamps
`createdAt`/`updatedAt` to the current time, appends the record to the
store under that id, and returns it. -/
theorem c1_theorem (db : DB) (freshId : String) (now : Nat) (d : CreateData)
    (hconn : db.isConnected = true)
    (hid : d.id = none)
    (hemail : ∀ u ∈ mapValues db.users, u.email ≠ d.email)
    (hkey : freshId ∉ db.users.map Prod.fst)
    (hfresh : freshId ∉ (mapValues db.users).map User.id) :
    createUser db freshId now d =
      .ok ({ id := freshId, name := d.name.getD "", email := d.email,
             age := d.age.getD 0, createdAt := now, updatedAt := now },
           { db with users := db.users ++
               [(freshId,
                 { id := freshId, name := d.name.getD "", email := d.email,
                   age := d.age.getD 0, createdAt := now,
                   updatedAt := now })] }) ∧
    (∀ u ∈ mapValues db.users, u.id ≠ freshId) := by
  have hfind : (mapValues db.users).find? (fun u => u.email == d.email)
      = none :=
    List.find?_eq_none.mpr (fun u hu => by simpa using hemail u hu)
  refine ⟨?_, ?_⟩
  case refine_2 =>
    intro u hu hcontra
    exact hfresh (hcontra ▸ List.mem_map_of_mem User.id hu)
  unfold createUser
  rw [hconn]
  simp only [Bool.not_true, Bool.false_eq_true, if_false, hfind,
    Option.isSome_none, hid, Option.getD_none]
  rw [mapSet_of_not_mem db.users freshId _ hkey]

/-- Witness for C1 at a concrete payload without an `id` field. -/
theorem c1_witness :
    plainData.id = none ∧
    createUser seededDb "f" 5 plainData =
      .ok (plainUser,
        { seededDb with users := seededDb.users ++ [("f", plainUser)] }) :=
  ⟨rfl, ((c1_theorem seededDb "f" 5 plainData rfl rfl (by decide)
    (by decide) (by decide)).1)⟩

/-! Claim C2. -/

/-- C2, counterexample: the store's update merges every present patch field
over the record, so a patch carrying a `createdAt` field changes
`createdAt`: updating the seeded user (whose `createdAt` is 20230101) with
`{ createdAt: 999 }` succeeds and yields a record with `createdAt = 999`.
The claim that `createdAt` never changes under any accepted patch is
therefore false. -/
theorem c2_counterexample :
    mapGet seededDb.users "a" = some (johnUser "a") ∧
    (johnUser "a").createdAt = 20230101 ∧
    (updateUser seededDb "a" 7 createdAtPatch).map
      (fun r => r.1.createdAt) = .ok 999 := by
  refine ⟨by rfl, by rfl, by rfl⟩

/-- C2, amended: whenever the store's update of user `u0` succeeds, the
updated record agrees with `u0` on every field not present in the patch
except `updatedAt`, which is re-stamped to the current time; in particular
`id` and `createdAt` are unchanged whenever the patch does not itself carry
those fields, and the update with the empty patch always succeeds on a
connected store and an existing id, changing only `updatedAt`. -/
theorem c2_theorem :
    (∀ (db : DB) (id : String) (now : Nat) (p : UpdateData)
        (u0 u' : User) (db' : DB),
      mapGet db.users id = some u0 →
      updateUser db id now p = .ok (u', db') →
      (p.name = none → u'.name = u0.name) ∧
      (p.email = none → u'.email = u0.email) ∧
      (p.age = none → u'.age = u0.age) ∧
      (p.id = none → u'.id = u0.id) ∧
      (p.createdAt = none → u'.createdAt = u0.createdAt) ∧
      u'.updatedAt = now ∧
      db'.users = mapSet db.users id u') ∧
    (∀ (db : DB) (id : String) (now : Nat) (u0 : User),
      db.isConnected = true →
      mapGet db.users id = some u0 →
      mergeUser u0 emptyPatch now = { u0 with updatedAt := now } ∧
      updateUser db id now emptyPatch =
        .ok (mergeUser u0 emptyPatch now,
          { db with users := mapSet db.users id (mergeUser u0 emptyPatch now) })) := by
  constructor
  · intro db id now p u0 u' db' hget hupd
    unfold updateUser at hupd
    split at hupd
    · exact absurd hupd (by simp)
    · split at hupd
      · exact absurd hupd (by simp)
      next user hgetu =>
        have huser : user = u0 := by
          rw [hget] at hgetu
          injection hgetu with h3
          exact h3.symm
        subst huser
        split at hupd
        · exact absurd hupd (by simp)
        · obtain ⟨hu, hdb⟩ : _ ∧ _ := by
            have h2 := hupd
            injection h2 with h1
            injection h1 with hu hdb
            exact ⟨hu, hdb⟩
          subst hu
          refine ⟨fun hn => by simp [mergeUser, hn],
            fun hn => by simp [mergeUser, hn],
            fun hn => by simp [mergeUser, hn],
            fun hn => by simp [mergeUser, hn],
            fun hn => by simp [mergeUser, hn], rfl, ?_⟩
          rw [← hdb]
  · intro db id now u0 hconn hget
    refine ⟨rfl, ?_⟩
    unfold updateUser
    rw [hconn]
    simp only [Bool.not_true, Bool.false_eq_true, if_false, hget]
    have hconf : emailConflictCheck db.users u0 emptyPatch.email = false := rfl
    rw [hconf]
    simp only [Bool.false_eq_true, if_false]

/-- Witness for C2: the empty patch on the seeded connected store. -/
theorem c2_witness :
    seededDb.isConnected = true ∧
    mapGet seededDb.users "a" = some (johnUser "a") ∧
    (mergeUser (johnUser "a") emptyPatch 7 =
        { johnUser "a" with updatedAt := 7 } ∧
      updateUser seededDb "a" 7 emptyPatch =
        .ok (mergeUser (johnUser "a") emptyPatch 7,
          { seededDb with
            users := mapSet seededDb.users "a"
              (mergeUser (johnUser "a") emptyPatch 7) })) :=
  ⟨rfl, by rfl, c2_theorem.2 seededDb "a" 7 (johnUser "a") rfl (by rfl)⟩

/-! Claim C3. -/

/-- C3, counterexample: a creation payload whose name trims to 101
characters passes the service's creation validation (which only enforces
the lower bound) and creation succeeds, even though `Validator.isValidName`
(not used by the service) rejects the name.  The claim that such a creation
fails with the validation-failed envelope is therefore false. -/
theorem c3_counterexample :
    (jsTrim longName).length = 101 ∧
    isValidName (some longName) = false ∧
    validateUserData longNameData = [] ∧
    (svcCreateUser seededDb "f" 5 longNameData).1.success = true := by
  refine ⟨by decide, by decide, by decide, by rfl⟩

/-- C3, amended: `Validator.isValidName` accepts a value iff it is a string
whose trimmed length lies in [2, 100]; however the name check actually used
by creation validation (`validateUserData`) only enforces the lower bound:
it reports the name error iff the name is absent or its trimmed length is
below 2, so a name trimming to more than 100 characters passes creation
validation. -/
theorem c3_theorem :
    (∀ s : Option String, isValidName s = true ↔
      ∃ str, s = some str ∧
        2 ≤ (jsTrim str).length ∧ (jsTrim str).length ≤ 100) ∧
    (∀ d : CreateData, nameError ∈ validateUserData d ↔
      (d.name = none ∨
        ∃ str, d.name = some str ∧ (jsTrim str).length < 2)) := by
  constructor
  · intro s
    cases s with
    | none => simp [isValidName]
    | some str =>
      by_cases hs : str = ""
      · subst hs
        simp only [isValidName, beq_self_eq_true, if_true]
        constructor
        · intro h
          exact absurd h (by decide)
        · rintro ⟨str', hstr', h2, _⟩
          obtain rfl : str' = "" := by
            injection hstr' with h4
            exact h4.symm
          exact absurd h2 (by decide)
      · simp only [isValidName, beq_iff_eq, hs, if_false, Bool.and_eq_true,
          decide_eq_true_eq]
        constructor
        · intro h
          exact ⟨str, rfl, h.1, h.2⟩
        · rintro ⟨str', hstr', h2, h100⟩
          obtain rfl : str' = str := by
            injection hstr' with h4
            exact h4.symm
          exact ⟨h2, h100⟩
  · intro d
    have hmem : nameError ∈ validateUserData d ↔
        createNameCheckFails d.name = true := by
      unfold validateUserData
      by_cases h1 : createNameCheckFails d.name = true <;>
        by_cases h2 : createEmailCheckFails d.email = true <;>
          by_cases h3 : createAgeCheckFails d.age = true <;>
            simp [h1, h2, h3, nameError, emailError, ageError]
    rw [hmem]
    cases hn : d.name with
    | none => simp [createNameCheckFails]
    | some s =>
      simp only [createNameCheckFails, Bool.or_eq_true, beq_iff_eq,
        decide_eq_true_eq]
      constructor
      · rintro (rfl | h)
        · exact Or.inr ⟨"", rfl, by decide⟩
        · exact Or.inr ⟨s, rfl, h⟩
      · rintro (hcontra | ⟨str, hstr, h⟩)
        · exact absurd hcontra (by simp)
        · obtain rfl : str = s := by
            injection hstr with h4
            exact h4.symm
          exact Or.inr h

/-! Claim C4. -/

/-- C4, counterexample: on the seeded connected store, deleting an existing
user returns a success envelope that carries no `data` field (and no
`error` field), refuting the claim that a successful envelope always
contains `data`. -/
theorem c4_counterexample :
    (svcDeleteUser seededDb "a").1.success = true ∧
    (svcDeleteUser seededDb "a").1.data = none := by
  refine ⟨by rfl, by rfl⟩

/-- C4, amended: for every service operation and input, a failure envelope
carries `error` and no `data`, and a success envelope carries no `error`
and carries `data` — except deleteUser, whose success envelope carries
neither `data` nor `error`, only the message. -/
theorem c4_theorem :
    (∀ db : DB,
      ((svcGetAllUsers db).success = true →
        (svcGetAllUsers db).data.isSome = true ∧
        (svcGetAllUsers db).error = none) ∧
      ((svcGetAllUsers db).success = false →
        (svcGetAllUsers db).error.isSome = true ∧
        (svcGetAllUsers db).data = none)) ∧
    (∀ (db : DB) (id : String),
      ((svcGetUserById db id).success = true →
        (svcGetUserById db id).data.isSome = true ∧
        (svcGetUserById db id).error = none) ∧
      ((svcGetUserById db id).success = false →
        (svcGetUserById db id).error.isSome = true ∧
        (svcGetUserById db id).data = none)) ∧
    (∀ (db : DB) (f : String) (n : Nat) (d : CreateData),
      ((svcCreateUser db f n d).1.success = true →
        (svcCreateUser db f n d).1.data.isSome = true ∧
        (svcCreateUser db f n d).1.error = none) ∧
      ((svcCreateUser db f n d).1.success = false →
        (svcCreateUser db f n d).1.error.isSome = true ∧
        (svcCreateUser db f n d).1.data = none)) ∧
    (∀ (db : DB) (id : String) (n : Nat) (p : UpdateData),
      ((svcUpdateUser db id n p).1.success = true →
        (svcUpdateUser db id n p).1.data.isSome = true ∧
        (svcUpdateUser db id n p).1.error = none) ∧
      ((svcUpdateUser db id n p).1.success = false →
        (svcUpdateUser db id n p).1.error.isSome = true ∧
        (svcUpdateUser db id n p).1.data = none)) ∧
    (∀ db : DB,
      ((svcGetUserStats db).success = true →
        (svcGetUserStats db).data.isSome = true ∧
        (svcGetUserStats db).error = none) ∧
      ((svcGetUserStats db).success = false →
        (svcGetUserStats db).error.isSome = true ∧
        (svcGetUserStats db).data = none)) ∧
    (∀ (db : DB) (id : String),
      ((svcDeleteUser db id).1.success = true →
        (svcDeleteUser db id).1.data = none ∧
        (svcDeleteUser db id).1.error = none) ∧
      ((svcDeleteUser db id).1.success = false →
        (svcDeleteUser db id).1.error.isSome = true ∧
        (svcDeleteUser db id).1.data = none)) := by
  refine ⟨?_, ?_, ?_, ?_, ?_, ?_⟩
  · intro db
    rcases hfa : findAllUsers db with m | users <;>
      simp [svcGetAllUsers, hfa]
  · intro db id
    by_cases hid : (id == "") = true
    · simp [svcGetUserById, hid, invalidInputEnv]
    · rcases hf : findUserById db id with m | ou
      · simp [svcGetUserById, hid, hf]
      · cases ou <;> simp [svcGetUserById, hid, hf, notFoundEnv]
  · intro db f n d
    by_cases hv : (validateUserData d != []) = true
    · simp [svcCreateUser, hv, validationFailedEnv]
    · rcases hf : findUserByEmail db d.email with m | ou
      · simp [svcCreateUser, hv, hf]
      · cases ou with
        | some u => simp [svcCreateUser, hv, hf]
        | none =>
          rcases hc : createUser db f n d with m | r
          · simp [svcCreateUser, hv, hf, hc]
          · obtain ⟨u, db'⟩ := r
            simp [svcCreateUser, hv, hf, hc]
  · intro db id n p
    by_cases hid : (id == "") = true
    · simp [svcUpdateUser, hid, invalidInputEnv]
    · by_cases hv : (validateUpdateData p != []) = true
      · simp [svcUpdateUser, hid, hv, validationFailedEnv]
      · rcases hf : findUserById db id with m | ou
        · simp [svcUpdateUser, hid, hv, hf]
        · cases ou with
          | none => simp [svcUpdateUser, hid, hv, hf, notFoundEnv]
          | some u =>
            rcases hc : updateUser db id n p with m | r
            · simp [svcUpdateUser, hid, hv, hf, hc]
            · obtain ⟨u', db'⟩ := r
              simp [svcUpdateUser, hid, hv, hf, hc]
  · intro db
    rcases hfa : findAllUsers db with m | users <;>
      simp [svcGetUserStats, hfa]
  · intro db id
    by_cases hid : (id == "") = true
    · simp [svcDeleteUser, hid, invalidInputEnv]
    · rcases hf : findUserById db id with m | ou
      · simp [svcDeleteUser, hid, hf]
      · cases ou with
        | none => simp [svcDeleteUser, hid, hf, notFoundEnv]
        | some u =>
          rcases hc : deleteUser db id with m | db'
          · simp [svcDeleteUser, hid, hf, hc]
          · simp [svcDeleteUser, hid, hf, hc]

/-- Witness for C4 at a concrete successful delete. -/
theorem c4_witness :
    (svcDeleteUser seededDb "a").1.success = true ∧
    ((svcDeleteUser seededDb "a").1.data = none ∧
      (svcDeleteUser seededDb "a").1.error = none) :=
  ⟨by rfl, (c4_theorem.2.2.2.2.2 seededDb "a").1 (by rfl)⟩

/-! Claim C6. -/

/-- C6: for every truthy id and every patch with a present-but-invalid
field, the service's updateUser returns the validation-failed envelope with
the store state unchanged, uniformly in the store state (connected or not,
id stored or not) — the store is not consulted; and the not-found envelope
arises only for patches that pass validation. -/
theorem c6_theorem :
    (∀ (db : DB) (id : String) (now : Nat) (p : UpdateData),
      id ≠ "" → validateUpdateData p ≠ [] →
      svcUpdateUser db id now p =
        (validationFailedEnv (validateUpdateData p), db)) ∧
    (∀ (db : DB) (id : String) (now : Nat) (p : UpdateData),
      (svcUpdateUser db id now p).1.error = some notFoundError →
      validateUpdateData p = []) := by
  constructor
  · intro db id now p hid herr
    unfold svcUpdateUser
    rw [if_neg (by simpa using hid), if_pos (by simpa using herr)]
  · intro db id now p herr
    unfold svcUpdateUser at herr
    by_cases hid : (id == "") = true
    · rw [if_pos hid] at herr
      exact absurd (by simpa [invalidInputEnv] using herr) (by decide)
    · rw [if_neg hid] at herr
      by_cases hval : (validateUpdateData p != []) = true
      · exfalso
        simp only [hval, if_true] at herr
        simp only [validationFailedEnv, joinErrors] at herr
        by_cases b1 : updateNameCheckFails p.name = true <;>
          by_cases b2 : updateEmailCheckFails p.email = true <;>
            by_cases b3 : updateAgeCheckFails p.age = true <;>
              simp only [validateUpdateData, b1, b2, b3, if_true, if_false,
                Bool.not_eq_true] at herr hval <;>
              exact absurd herr (by decide)
      · simpa using hval

/-- Witness for C6: an out-of-range age patch against a disconnected store
still yields the validation-failed envelope and leaves the store alone. -/
theorem c6_witness :
    ("x" ≠ "" ∧ validateUpdateData badAgePatch ≠ []) ∧
    svcUpdateUser (newDatabase "a" "b") "x" 3 badAgePatch =
      (validationFailedEnv (validateUpdateData badAgePatch),
        newDatabase "a" "b") :=
  ⟨⟨by decide, by decide⟩,
    c6_theorem.1 (newDatabase "a" "b") "x" 3 badAgePatch (by decide)
      (by decide)⟩

/-! Claim C7. -/

theorem ctrlUpdateStatus_cases (env : Envelope) (h : env.success = false) :
    (ctrlUpdateStatus env = 404 ↔ env.error = some notFoundError) ∧
    (ctrlUpdateStatus env = 409 ↔ env.error = some duplicateEmailError) ∧
    (env.error ≠ some notFoundError → env.error ≠ some duplicateEmailError →
      ctrlUpdateStatus env = 400) := by
  unfold ctrlUpdateStatus
  rw [h]
  simp only [Bool.false_eq_true, if_false]
  by_cases e1 : (env.error == some notFoundError) = true
  · have he1 : env.error = some notFoundError := by simpa using e1
    simp only [e1, if_true]
    refine ⟨by simp [he1], ?_, ?_⟩
    · constructor
      · intro hcontra
        exact absurd hcontra (by decide)
      · intro hdup
        rw [he1] at hdup
        exact absurd hdup (by decide)
    · intro hnf _
      exact absurd he1 hnf
  · have e1' : (env.error == some notFoundError) = false := by
      simpa using e1
    have he1 : env.error ≠ some notFoundError := by simpa using e1
    by_cases e2 : (env.error == some duplicateEmailError) = true
    · have he2 : env.error = some duplicateEmailError := by simpa using e2
      simp only [e1', Bool.false_eq_true, if_false, e2, if_true]
      refine ⟨?_, by simp [he2], ?_⟩
      · constructor
        · intro hcontra
          exact absurd hcontra (by decide)
        · intro hnf
          exact absurd hnf he1
      · intro _ hdup
        exact absurd he2 hdup
    · have e2' : (env.error == some duplicateEmailError) = false := by
        simpa using e2
      have he2 : env.error ≠ some duplicateEmailError := by simpa using e2
      simp only [e1', e2', Bool.false_eq_true, if_false]
      refine ⟨?_, ?_, by simp⟩
      · constructor
        · intro hcontra
          exact absurd hcontra (by decide)
        · intro hnf
          exact absurd hnf he1
      · constructor
        · intro hcontra
          exact absurd hcontra (by decide)
        · intro hdup
          exact absurd hdup he2

/-- C7: for every failure envelope returned by the service's updateUser,
the controller's update handler answers 404 iff the error text is exactly
`'User not found'`, 409 iff it is exactly
`'User with this email already exists'`, and 400 otherwise; consequently a
store-level duplicate-email failure on update — caught generically by the
service with `message = 'Failed to update user'` — still yields 409. -/
theorem c7_theorem :
    (∀ (db : DB) (id : String) (now : Nat) (p : UpdateData),
      (svcUpdateUser db id now p).1.success = false →
      ((ctrlUpdateStatus (svcUpdateUser db id now p).1 = 404 ↔
        (svcUpdateUser db id now p).1.error = some notFoundError) ∧
       (ctrlUpdateStatus (svcUpdateUser db id now p).1 = 409 ↔
        (svcUpdateUser db id now p).1.error = some duplicateEmailError) ∧
       ((svcUpdateUser db id now p).1.error ≠ some notFoundError →
        (svcUpdateUser db id now p).1.error ≠ some duplicateEmailError →
        ctrlUpdateStatus (svcUpdateUser db id now p).1 = 400))) ∧
    ((svcUpdateUser seededDb "a" 9 janeEmailPatch).1 =
      { success := false, data := none, error := some duplicateEmailError,
        message := "Failed to update user" } ∧
     ctrlUpdateStatus (svcUpdateUser seededDb "a" 9 janeEmailPatch).1
       = 409) := by
  refine ⟨fun db id now p h => ctrlUpdateStatus_cases _ h, ?_, ?_⟩
  · decide
  · decide

/-- Witness for C7: the disconnected-store failure envelope (error text
neither message) maps to 400. -/
theorem c7_witness :
    (svcUpdateUser (newDatabase "a" "b") "a" 1 emptyPatch).1.success
      = false ∧
    ctrlUpdateStatus (svcUpdateUser (newDatabase "a" "b") "a" 1 emptyPatch).1
      = 400 :=
  ⟨by rfl,
    (c7_theorem.1 (newDatabase "a" "b") "a" 1 emptyPatch (by rfl)).2.2
      (by decide) (by decide)⟩

/-! Claim C9. -/

theorem foldl_add_age (users : List User) (c : Rat) :
    users.foldl (fun sum u => sum + u.age) c = c + (users.map User.age).sum := by
  induction users generalizing c with
  | nil => simp
  | cons u rest ih =>
    simp only [List.foldl_cons, List.map_cons, List.sum_cons, ih, add_assoc]

theorem foldl_min_spec (as : List Rat) (a : Rat) :
    (as.foldl min a = a ∨ as.foldl min a ∈ as) ∧
    as.foldl min a ≤ a ∧ ∀ x ∈ as, as.foldl min a ≤ x := by
  induction as generalizing a with
  | nil => simp
  | cons b bs ih =>
    obtain ⟨hmem, hle, hall⟩ := ih (min a b)
    simp only [List.foldl_cons]
    refine ⟨?_, le_trans hle (min_le_left a b), ?_⟩
    · rcases hmem with hm | hm
      · rcases min_choice a b with hc | hc
        · exact Or.inl (hm.trans hc)
        · exact Or.inr (List.mem_cons.mpr (Or.inl (hm.trans hc)))
      · exact Or.inr (List.mem_cons_of_mem b hm)
    · intro x hx
      rcases List.mem_cons.mp hx with rfl | hx
      · exact le_trans hle (min_le_right a x)
      · exact hall x hx

theorem foldl_max_spec (as : List Rat) (a : Rat) :
    (as.foldl max a = a ∨ as.foldl max a ∈ as) ∧
    a ≤ as.foldl max a ∧ ∀ x ∈ as, x ≤ as.foldl max a := by
  induction as generalizing a with
  | nil => simp
  | cons b bs ih =>
    obtain ⟨hmem, hle, hall⟩ := ih (max a b)
    simp only [List.foldl_cons]
    refine ⟨?_, le_trans (le_max_left a b) hle, ?_⟩
    · rcases hmem with hm | hm
      · rcases max_choice a b with hc | hc
        · exact Or.inl (hm.trans hc)
        · exact Or.inr (List.mem_cons.mpr (Or.inl (hm.trans hc)))
      · exact Or.inr (List.mem_cons_of_mem b hm)
    · intro x hx
      rcases List.mem_cons.mp hx with rfl | hx
      · exact le_trans (le_max_right a x) hle
      · exact hall x hx

theorem jsMinList_spec {l : List Rat} (h : l ≠ []) :
    jsMinList l ∈ l ∧ ∀ a ∈ l, jsMinList l ≤ a := by
  cases l with
  | nil => exact absurd rfl h
  | cons a as =>
    obtain ⟨hmem, hle, hall⟩ := foldl_min_spec as a
    constructor
    · rcases hmem with hm | hm
      · rw [jsMinList, hm]
        exact List.mem_cons_self a as
      · rw [jsMinList]
        exact List.mem_cons_of_mem a hm
    · intro x hx
      rcases List.mem_cons.mp hx with rfl | hx
      · exact hle
      · exact hall x hx

theorem jsMaxList_spec {l : List Rat} (h : l ≠ []) :
    jsMaxList l ∈ l ∧ ∀ a ∈ l, a ≤ jsMaxList l := by
  cases l with
  | nil => exact absurd rfl h
  | cons a as =>
    obtain ⟨hmem, hle, hall⟩ := foldl_max_spec as a
    constructor
    · rcases hmem with hm | hm
      · rw [jsMaxList, hm]
        exact List.mem_cons_self a as
      · rw [jsMaxList]
        exact List.mem_cons_of_mem a hm
    · intro x hx
      rcases List.mem_cons.mp hx with rfl | hx
      · exact hle
      · exact hall x hx

theorem statsDb_stats :
    computeStats (mapValues statsDb.users) = ⟨3, 30, 25, 35⟩ := by
  show computeStats
    [⟨"a", "A", "a@b.c", 30, 0, 0⟩, ⟨"b", "B", "b@b.c", 25, 0, 0⟩,
     ⟨"c", "C", "c@b.c", 35, 0, 0⟩] = _
  unfold computeStats
  norm_num [jsMinList, jsMaxList, min_def, max_def, Stats.mk.injEq]

/-- C9: on a connected store, getUserStats succeeds with `totalUsers` the
number of users, `averageAge` the arithmetic mean of the ages, and
`youngestUser`/`oldestUser` the minimum/maximum age (each of the last three
0 when there are no users); on the concrete store with ages [30, 25, 35]
the stats are `{3, 30, 25, 35}`. -/
theorem c9_theorem :
    (∀ db : DB, db.isConnected = true →
      svcGetUserStats db =
        { success := true,
          data := some (.stats (computeStats (mapValues db.users))),
          error := none,
          message := "User statistics retrieved successfully" } ∧
      (computeStats (mapValues db.users)).totalUsers =
        (mapValues db.users).length ∧
      (mapValues db.users ≠ [] →
        (computeStats (mapValues db.users)).averageAge =
          ((mapValues db.users).map User.age).sum /
            ((mapValues db.users).length : Rat) ∧
        ((computeStats (mapValues db.users)).youngestUser ∈
            (mapValues db.users).map User.age ∧
          ∀ a ∈ (mapValues db.users).map User.age,
            (computeStats (mapValues db.users)).youngestUser ≤ a) ∧
        ((computeStats (mapValues db.users)).oldestUser ∈
            (mapValues db.users).map User.age ∧
          ∀ a ∈ (mapValues db.users).map User.age,
            a ≤ (computeStats (mapValues db.users)).oldestUser)) ∧
      (mapValues db.users = [] →
        computeStats (mapValues db.users) = ⟨0, 0, 0, 0⟩)) ∧
    svcGetUserStats statsDb =
      { success := true, data := some (.stats ⟨3, 30, 25, 35⟩),
        error := none,
        message := "User statistics retrieved successfully" } := by
  constructor
  · intro db h
    refine ⟨?_, rfl, ?_, ?_⟩
    · unfold svcGetUserStats findAllUsers
      rw [h]
      rfl
    · intro hne
      have hlen : 0 < (mapValues db.users).length := List.length_pos.mpr hne
      have hmapne : (mapValues db.users).map User.age ≠ [] := by
        simpa using hne
      refine ⟨?_, ?_, ?_⟩
      · unfold computeStats
        simp only [hlen, if_pos]
        rw [foldl_add_age, zero_add]
      · unfold computeStats
        simp only [hlen, if_pos]
        exact jsMinList_spec hmapne
      · unfold computeStats
        simp only [hlen, if_pos]
        exact jsMaxList_spec hmapne
    · intro hemp
      unfold computeStats
      rw [hemp]
      rfl
  · have h1 : svcGetUserStats statsDb =
        { success := true,
          data := some (.stats (computeStats (mapValues statsDb.users))),
          error := none,
          message := "User statistics retrieved successfully" } := rfl
    rw [h1, statsDb_stats]

/-- Witness for C9 at the concrete three-user store. -/
theorem c9_witness :
    statsDb.isConnected = true ∧ mapValues statsDb.users ≠ [] ∧
    (computeStats (mapValues statsDb.users)).averageAge =
      ((mapValues statsDb.users).map User.age).sum /
        ((mapValues statsDb.users).length : Rat) :=
  ⟨rfl, by decide,
    ((c9_theorem.1 statsDb rfl).2.2.1 (by decide)).1⟩

end TddRest
